import Mathlib

/-!
Verification of the snake-ai-battle match core.

The repository ships the game README (rules, wire protocol, example
exchange), a bot wrapper script, and the spectator renderer
`src/public/script.js`.  The match server itself is not among the given
source files, so the Match State Machine, Board/Trail Model, Coordinate
Transformer, Connection Manager and State Broadcaster are modelled from
the specification; the renderer's cell-colouring logic is embedded
directly from `script.js`.
-/

namespace SnakeBattle

/-- The two player sides. -/
inductive Color
| Red
| Blue
deriving DecidableEq

/-- Occupancy mark of one board cell. -/
inductive Cell
| Empty
| OwnedBy (c : Color)
deriving DecidableEq

/-- A canonical-frame move. -/
inductive Move
| up
| down
| left
| right
deriving DecidableEq

/-- Terminal outcome of a match. -/
inductive Outcome
| RedWins
| BlueWins
| Tie
deriving DecidableEq

/-- Phase of the match state machine. -/
inductive Phase
| Running
| Finished (o : Outcome)
deriving DecidableEq

/-- Per-turn result of one connection's I/O path: a parsed move, a missed
200ms deadline, or a malformed move line. -/
inductive MoveResult
| move (m : Move)
| timeout
| malformed
deriving DecidableEq

/-- A player: side, canonical current position (cell index), alive flag.
(The connection handle is outside the pure model.) -/
structure Player where
  color : Color
  currentPosition : Nat
  alive : Bool
deriving DecidableEq

/-- Full match state owned by the Match State Machine. -/
structure MatchState where
  board : Nat → Cell
  red : Player
  blue : Player
  turn : Nat
  phase : Phase

/-- Modelled from the spec: Coordinate Transformer, Blue view transform,
the point reflection on the 32x32 row-major board. -/
def reflect (idx : Nat) : Nat := 1023 - idx

/-- Modelled from the spec: Coordinate Transformer, Blue move transform
(Up and Down swap, Left and Right swap). -/
def flipMove : Move → Move
| .up => .down
| .down => .up
| .left => .right
| .right => .left

/-- Modelled from the spec: positions sent to a player are reflected when
the player is Blue, identity for Red. -/
def viewPos : Color → Nat → Nat
| .Red, idx => idx
| .Blue, idx => reflect idx

/-- Modelled from the spec: a move received in a player's own frame mapped
to the canonical frame (Blue's deltas are negated). -/
def canonicalMove : Color → Move → Move
| .Red, m => m
| .Blue, m => flipMove m

/-- Modelled from the spec: unit delta of a canonical move,
Up=(0,-1), Down=(0,+1), Left=(-1,0), Right=(+1,0). -/
def delta : Move → Int × Int
| .up => (0, -1)
| .down => (0, 1)
| .left => (-1, 0)
| .right => (1, 0)

/-- Modelled from the spec: candidate next cell of a move from a cell
index; `none` when it leaves the 32x32 board. -/
def candidate (idx : Nat) (m : Move) : Option Nat :=
  let cx : Int := (idx % 32 : Nat) + (delta m).1
  let cy : Int := (idx / 32 : Nat) + (delta m).2
  if 0 ≤ cx ∧ cx < 32 ∧ 0 ≤ cy ∧ cy < 32 then
    some (cy.toNat * 32 + cx.toNat)
  else
    none

/-- Modelled from the spec: Board/Trail Model occupancy test. -/
def isOccupied (b : Nat → Cell) (idx : Nat) : Bool :=
  b idx != .Empty

/-- Modelled from the spec: Board/Trail Model `occupy` (the state machine
only calls it on cells its collision check found Empty). -/
def occupy (b : Nat → Cell) (idx : Nat) (c : Color) : Nat → Cell :=
  fun i => if i = idx then .OwnedBy c else b i

/-- `occupy` lifted to an optional target cell. -/
def occupyOpt (b : Nat → Cell) (c : Option Nat) (col : Color) : Nat → Cell :=
  match c with
  | some idx => occupy b idx col
  | none => b

/-- Candidate position of a player for a per-turn result: `none` on
timeout or malformed input, else the move's candidate cell. -/
def candOf (p : Player) : MoveResult → Option Nat
| .move m => candidate p.currentPosition m
| .timeout => none
| .malformed => none

/-- Modelled from the spec: crash test against the pre-turn board.  A
player crashes when it has no candidate (forfeit or out of bounds), when
the candidate is already occupied by either trail, or when it equals the
other player's candidate this same turn. -/
def crashB (b : Nat → Cell) (cSelf cOther : Option Nat) : Bool :=
  match cSelf with
  | none => true
  | some c => isOccupied b c || decide (cOther = some c)

/-- Advance a player to a candidate cell (unchanged when `none`). -/
def applyMove (p : Player) (c : Option Nat) : Player :=
  match c with
  | some idx => { p with currentPosition := idx }
  | none => p

/-- Whether a per-turn result is a forfeit (timeout or malformed line)
rather than a parsed move. -/
def isForfeit : MoveResult → Bool
| .move _ => false
| .timeout => true
| .malformed => true

/-- Modelled from the spec: one simultaneous-move turn of the Match State
Machine (4.4 steps 1-5).  Both candidates come from the same pre-turn
snapshot; crashed players are marked dead; survivors occupy their
candidate cells and advance; the outcome is decided from the crash set;
no transition leaves Finished. -/
def stepTurn (s : MatchState) (rRed rBlue : MoveResult) : MatchState :=
  match s.phase with
  | .Finished _ => s
  | .Running =>
    let cR := candOf s.red rRed
    let cB := candOf s.blue rBlue
    let redCrash := crashB s.board cR cB
    let blueCrash := crashB s.board cB cR
    if redCrash && blueCrash then
      { s with
          red := { s.red with alive := false },
          blue := { s.blue with alive := false },
          phase := .Finished .Tie }
    else if redCrash then
      { s with
          board := occupyOpt s.board cB .Blue,
          red := { s.red with alive := false },
          blue := applyMove s.blue cB,
          phase := .Finished .BlueWins }
    else if blueCrash then
      { s with
          board := occupyOpt s.board cR .Red,
          red := applyMove s.red cR,
          blue := { s.blue with alive := false },
          phase := .Finished .RedWins }
    else
      { s with
          board := occupyOpt (occupyOpt s.board cR .Red) cB .Blue,
          red := applyMove s.red cR,
          blue := applyMove s.blue cB,
          turn := s.turn + 1 }

/-- Modelled from the spec: Red's fixed starting cell 484 = 15*32+4. -/
def redStart : Nat := 484

/-- Modelled from the spec: Blue starts at the canonical reflection of
Red's start, 1023 - 484. -/
def blueStart : Nat := 1023 - 484

/-- Modelled from the spec: match state at turn 0, both trails containing
only the starting cells, both players alive. -/
def initMatch : MatchState :=
  { board := occupy (occupy (fun _ => .Empty) redStart .Red) blueStart .Blue,
    red := { color := .Red, currentPosition := redStart, alive := true },
    blue := { color := .Blue, currentPosition := blueStart, alive := true },
    turn := 0,
    phase := .Running }

/-- Modelled from the spec: the position line `<selfPos> <otherPos>`. -/
def posLine (selfPos otherPos : Nat) : String :=
  toString selfPos ++ " " ++ toString otherPos

/-- Modelled from the spec: the position line sent to one player, both
values transformed into that player's frame. -/
def posLineFor (c : Color) (s : MatchState) : String :=
  match c with
  | .Red => posLine (viewPos .Red s.red.currentPosition) (viewPos .Red s.blue.currentPosition)
  | .Blue => posLine (viewPos .Blue s.blue.currentPosition) (viewPos .Blue s.red.currentPosition)

/-- One turn-resolution step of the state machine, for some pair of
per-connection results. -/
def StepRel (s t : MatchState) : Prop :=
  ∃ rR rB, t = stepTurn s rR rB

/-- Modelled from the spec: side assignment by the Connection Manager. -/
structure ConnAssign where
  redId : String
  blueId : String
  redStartCell : Nat
  blueStartCell : Nat
deriving DecidableEq

/-- Modelled from the spec: the Connection Manager assigns Red to the
connection whose identifier line is fully received first, Blue to the
other, with the fixed starting cells. -/
def assignSides (firstId secondId : String) : ConnAssign :=
  { redId := firstId,
    blueId := secondId,
    redStartCell := redStart,
    blueStartCell := blueStart }

/-- Modelled from the spec: the JSON payload published by the State
Broadcaster after each turn. -/
structure RenderPayload where
  width : Nat
  height : Nat
  data : List String
deriving DecidableEq

/-- Modelled from the spec: the event name under which the broadcaster
publishes a board snapshot. -/
def broadcastEventName : String := "render"

/-- Modelled from the spec: the entry published for one cell of the
canonical board ("Red", "Blue", or any other value for unoccupied). -/
def cellEntry : Cell → String
| .OwnedBy .Red => "Red"
| .OwnedBy .Blue => "Blue"
| .Empty => "Empty"

/-- Modelled from the spec: the canonical board snapshot payload, a
row-major sequence of length width*height. -/
def snapshot (s : MatchState) : RenderPayload :=
  { width := 32,
    height := 32,
    data := (List.range (32 * 32)).map (fun i => cellEntry (s.board i)) }

/-- Fill styles the renderer chooses between (from `script.js`). -/
inductive FillStyle
| red
| blue
| grey
deriving DecidableEq

/-- Per-cell colour decision of `render` in `src/public/script.js`: the
if/else-if/else chain over the cell entry, where a missing or non-string
entry compares unequal to both "Red" and "Blue". -/
def squareColor (square : Option String) : FillStyle :=
  if square = some "Red" then .red
  else if square = some "Blue" then .blue
  else .grey

/-- The renderer's colour for cell `idx`, reading `data.data[idx]` as in
`script.js` (out-of-range access yields a missing value). -/
def cellFill (ds : List String) (idx : Nat) : FillStyle :=
  squareColor ds[idx]?

/-- A state with the two players two cells apart, used to exhibit a
simultaneous head-on collision. -/
def headonState : MatchState :=
  { initMatch with
      red := { color := .Red, currentPosition := 100, alive := true },
      blue := { color := .Blue, currentPosition := 102, alive := true } }

/-- A state with Red on the left wall at (0, 15), cell 480. -/
def wallState : MatchState :=
  { initMatch with
      red := { color := .Red, currentPosition := 480, alive := true } }

/-- Eliminate a false crash test: the player had a candidate cell, it was
unoccupied on the pre-turn board, and it differs from the other player's
candidate. -/
theorem crashB_false_elim (b : Nat → Cell) (cSelf cOther : Option Nat)
    (h : crashB b cSelf cOther = false) :
    ∃ x, cSelf = some x ∧ isOccupied b x = false ∧ cOther ≠ some x := by
  cases cSelf with
  | none => simp [crashB] at h
  | some x =>
    simp [crashB] at h
    exact ⟨x, rfl, h.1, h.2⟩

/-- A cell owned by a player is distinct from any unoccupied cell. -/
theorem owned_ne_target (b : Nat → Cell) (idx c : Nat) (p : Color)
    (ho : b idx = .OwnedBy p) (hc : isOccupied b c = false) : idx ≠ c := by
  intro h
  subst h
  simp [isOccupied, ho] at hc

/-- One turn never rewrites a cell already owned by a player. -/
theorem step_preserves_owned (s : MatchState) (rR rB : MoveResult) (idx : Nat) (p : Color)
    (ho : s.board idx = .OwnedBy p) :
    (stepTurn s rR rB).board idx = .OwnedBy p := by
  cases hp : s.phase with
  | Finished o => simp [stepTurn, hp]; exact ho
  | Running =>
    by_cases h1 : crashB s.board (candOf s.red rR) (candOf s.blue rB) = true <;>
      by_cases h2 : crashB s.board (candOf s.blue rB) (candOf s.red rR) = true
    · simp [stepTurn, hp, h1, h2]; exact ho
    · simp only [Bool.not_eq_true] at h2
      obtain ⟨y, hy, hby, _⟩ := crashB_false_elim _ _ _ h2
      rw [hy] at h1 h2
      have hiy := owned_ne_target _ _ _ _ ho hby
      simp [stepTurn, hp, h1, h2, hy, occupyOpt, occupy, hiy, ho]
    · simp only [Bool.not_eq_true] at h1
      obtain ⟨x, hx, hbx, _⟩ := crashB_false_elim _ _ _ h1
      rw [hx] at h1 h2
      have hix := owned_ne_target _ _ _ _ ho hbx
      simp [stepTurn, hp, h1, h2, hx, occupyOpt, occupy, hix, ho]
    · simp only [Bool.not_eq_true] at h1 h2
      obtain ⟨x, hx, hbx, _⟩ := crashB_false_elim _ _ _ h1
      obtain ⟨y, hy, hby, _⟩ := crashB_false_elim _ _ _ h2
      rw [hx, hy] at h1 h2
      have hix := owned_ne_target _ _ _ _ ho hbx
      have hiy := owned_ne_target _ _ _ _ ho hby
      simp [stepTurn, hp, h1, h2, hx, hy, occupyOpt, occupy, hix, hiy, ho]

/-- A player whose own crash test is true leaves the turn with its alive
flag cleared (Red side). -/
theorem red_crash_dead (s : MatchState) (rR rB : MoveResult)
    (hp : s.phase = .Running)
    (h1 : crashB s.board (candOf s.red rR) (candOf s.blue rB) = true) :
    (stepTurn s rR rB).red.alive = false := by
  by_cases h2 : crashB s.board (candOf s.blue rB) (candOf s.red rR) = true
  · simp [stepTurn, hp, h1, h2]
  · simp only [Bool.not_eq_true] at h2
    simp [stepTurn, hp, h1, h2]

/-- A player whose own crash test is true leaves the turn with its alive
flag cleared (Blue side). -/
theorem blue_crash_dead (s : MatchState) (rR rB : MoveResult)
    (hp : s.phase = .Running)
    (h2 : crashB s.board (candOf s.blue rB) (candOf s.red rR) = true) :
    (stepTurn s rR rB).blue.alive = false := by
  by_cases h1 : crashB s.board (candOf s.red rR) (candOf s.blue rB) = true
  · simp [stepTurn, hp, h1, h2]
  · simp only [Bool.not_eq_true] at h1
    simp [stepTurn, hp, h1, h2]

/-- Claim C1: in every turn where both players supply legal moves whose
candidate cells are in bounds, unoccupied on the pre-turn board, and
distinct from each other, the phase stays Running, the turn counter
increments exactly once, and each player's currentPosition becomes its
candidate cell. -/
theorem legal_turn_advances (s : MatchState) (rR rB : MoveResult) (cR cB : Nat)
    (hp : s.phase = .Running)
    (hcR : candOf s.red rR = some cR) (hcB : candOf s.blue rB = some cB)
    (hoR : isOccupied s.board cR = false) (hoB : isOccupied s.board cB = false)
    (hne : cR ≠ cB) :
    (stepTurn s rR rB).phase = .Running ∧
    (stepTurn s rR rB).turn = s.turn + 1 ∧
    (stepTurn s rR rB).red.currentPosition = cR ∧
    (stepTurn s rR rB).blue.currentPosition = cB := by
  have hcrR : crashB s.board (some cR) (some cB) = false := by
    simp [crashB, hoR]
    exact fun h => hne h.symm
  have hcrB : crashB s.board (some cB) (some cR) = false := by
    simp [crashB, hoB]
    exact hne
  simp [stepTurn, hp, hcrR, hcrB, hcR, hcB, applyMove]

/-- Witness for C1: from the initial state, Red moving up and Blue moving
down is a legal distinct pair; the turn advances to 1 with positions 452
and 571. -/
theorem legal_turn_advances_witness :
    initMatch.phase = .Running ∧
    candOf initMatch.red (.move .up) = some 452 ∧
    candOf initMatch.blue (.move .down) = some 571 ∧
    isOccupied initMatch.board 452 = false ∧
    isOccupied initMatch.board 571 = false ∧
    (452 : Nat) ≠ 571 ∧
    ((stepTurn initMatch (.move .up) (.move .down)).phase = .Running ∧
     (stepTurn initMatch (.move .up) (.move .down)).turn = initMatch.turn + 1 ∧
     (stepTurn initMatch (.move .up) (.move .down)).red.currentPosition = 452 ∧
     (stepTurn initMatch (.move .up) (.move .down)).blue.currentPosition = 571) :=
  ⟨rfl, by decide, by decide, by decide, by decide, by decide,
   legal_turn_advances initMatch (.move .up) (.move .down) 452 571 rfl
     (by decide) (by decide) (by decide) (by decide) (by decide)⟩

/-- Claim C2: in every turn where both players' candidate cells coincide,
both players are marked crashed and the match finishes with outcome
Tie. -/
theorem headon_collision_tie (s : MatchState) (rR rB : MoveResult) (c : Nat)
    (hp : s.phase = .Running)
    (hcR : candOf s.red rR = some c) (hcB : candOf s.blue rB = some c) :
    (stepTurn s rR rB).phase = .Finished .Tie ∧
    (stepTurn s rR rB).red.alive = false ∧
    (stepTurn s rR rB).blue.alive = false := by
  have hcr : crashB s.board (some c) (some c) = true := by
    simp [crashB]
  simp [stepTurn, hp, hcr, hcR, hcB]

/-- Witness for C2: with the players at cells 100 and 102, Red moving
right and Blue moving left both target cell 101, and the match ties. -/
theorem headon_collision_tie_witness :
    headonState.phase = .Running ∧
    candOf headonState.red (.move .right) = some 101 ∧
    candOf headonState.blue (.move .left) = some 101 ∧
    ((stepTurn headonState (.move .right) (.move .left)).phase = .Finished .Tie ∧
     (stepTurn headonState (.move .right) (.move .left)).red.alive = false ∧
     (stepTurn headonState (.move .right) (.move .left)).blue.alive = false) :=
  ⟨rfl, by decide, by decide,
   headon_collision_tie headonState (.move .right) (.move .left) 101 rfl
     (by decide) (by decide)⟩

/-- Claim C3: along every run of the state machine starting from a
reachable state, a board cell owned by a player keeps exactly that value:
no cell ever leaves a non-Empty value (append-only trail invariant). -/
theorem trail_append_only (s t : MatchState) (idx : Nat) (p : Color)
    (hreach : Relation.ReflTransGen StepRel initMatch s)
    (hst : Relation.ReflTransGen StepRel s t)
    (ho : s.board idx = .OwnedBy p) :
    t.board idx = .OwnedBy p := by
  induction hst with
  | refl => exact ho
  | tail hstep hlast ih =>
    obtain ⟨rR, rB, rfl⟩ := hlast
    exact step_preserves_owned _ rR rB idx p ih

/-- Witness for C3: cell 484 is owned by Red initially and still owned by
Red after one turn from the initial state. -/
theorem trail_append_only_witness :
    initMatch.board 484 = .OwnedBy .Red ∧
    (stepTurn initMatch (.move .up) (.move .down)).board 484 = .OwnedBy .Red :=
  ⟨by decide,
   trail_append_only initMatch (stepTurn initMatch (.move .up) (.move .down)) 484 .Red
     Relation.ReflTransGen.refl
     (Relation.ReflTransGen.single ⟨.move .up, .move .down, rfl⟩)
     (by decide)⟩

set_option maxRecDepth 8192 in
/-- Claim C4: the Blue view transform reflect(idx) = 1023 - idx is its
own inverse on all 1024 board cells, and the Blue move transform
(Up-Down swap, Left-Right swap) is its own inverse on all four moves. -/
theorem blue_view_involutive :
    (∀ idx : Fin 1024, reflect (reflect idx.val) = idx.val) ∧
    (∀ idx : Fin 1024, viewPos .Blue (viewPos .Blue idx.val) = idx.val) ∧
    (∀ m : Move, flipMove (flipMove m) = m) ∧
    (∀ m : Move, canonicalMove .Blue (canonicalMove .Blue m) = m) := by
  refine ⟨by decide, by decide, ?_, ?_⟩ <;>
    intro m <;> cases m <;> rfl

/-- Claim C5: a client whose per-turn result is a forfeit (timeout or
malformed line) is scored exactly as a timeout and marked crashed that
turn; if the opponent also crashes that turn the outcome is Tie,
otherwise the opponent wins.  Stated for either side forfeiting. -/
theorem forfeit_scored_as_timeout (s : MatchState) (rR rB : MoveResult)
    (hp : s.phase = .Running) :
    (isForfeit rR = true →
      stepTurn s rR rB = stepTurn s .timeout rB ∧
      (stepTurn s rR rB).red.alive = false ∧
      (crashB s.board (candOf s.blue rB) none = true →
        (stepTurn s rR rB).phase = .Finished .Tie) ∧
      (crashB s.board (candOf s.blue rB) none = false →
        (stepTurn s rR rB).phase = .Finished .BlueWins)) ∧
    (isForfeit rB = true →
      stepTurn s rR rB = stepTurn s rR .timeout ∧
      (stepTurn s rR rB).blue.alive = false ∧
      (crashB s.board (candOf s.red rR) none = true →
        (stepTurn s rR rB).phase = .Finished .Tie) ∧
      (crashB s.board (candOf s.red rR) none = false →
        (stepTurn s rR rB).phase = .Finished .RedWins)) := by
  constructor
  · intro hf
    have hc : candOf s.red rR = none := by
      cases rR with
      | move m => simp [isForfeit] at hf
      | timeout => rfl
      | malformed => rfl
    have heq : stepTurn s rR rB = stepTurn s .timeout rB := by
      cases rR with
      | move m => simp [isForfeit] at hf
      | timeout => rfl
      | malformed => rfl
    have h1 : crashB s.board (candOf s.red rR) (candOf s.blue rB) = true := by
      rw [hc]; rfl
    refine ⟨heq, red_crash_dead s rR rB hp h1, ?_, ?_⟩
    · intro hb
      rw [hc] at h1
      simp [stepTurn, hp, hc, h1, hb]
    · intro hb
      rw [hc] at h1
      simp [stepTurn, hp, hc, h1, hb]
  · intro hf
    have hc : candOf s.blue rB = none := by
      cases rB with
      | move m => simp [isForfeit] at hf
      | timeout => rfl
      | malformed => rfl
    have heq : stepTurn s rR rB = stepTurn s rR .timeout := by
      cases rB with
      | move m => simp [isForfeit] at hf
      | timeout => rfl
      | malformed => rfl
    have h2 : crashB s.board (candOf s.blue rB) (candOf s.red rR) = true := by
      rw [hc]; rfl
    refine ⟨heq, blue_crash_dead s rR rB hp h2, ?_, ?_⟩
    · intro hb
      rw [hc] at h2
      simp [stepTurn, hp, hc, h2, hb]
    · intro hb
      rw [hc] at h2
      simp [stepTurn, hp, hc, h2, hb]

/-- Witness for C5: from the initial state, a malformed line from Red
against Blue moving up (which does not crash) yields Finished BlueWins,
and the step equals a timeout step. -/
theorem forfeit_scored_as_timeout_witness :
    initMatch.phase = .Running ∧
    isForfeit .malformed = true ∧
    crashB initMatch.board (candOf initMatch.blue (.move .up)) none = false ∧
    stepTurn initMatch .malformed (.move .up) = stepTurn initMatch .timeout (.move .up) ∧
    (stepTurn initMatch .malformed (.move .up)).red.alive = false ∧
    (stepTurn initMatch .malformed (.move .up)).phase = .Finished .BlueWins :=
  ⟨rfl, rfl, by decide,
   ((forfeit_scored_as_timeout initMatch .malformed (.move .up) rfl).1 rfl).1,
   ((forfeit_scored_as_timeout initMatch .malformed (.move .up) rfl).1 rfl).2.1,
   ((forfeit_scored_as_timeout initMatch .malformed (.move .up) rfl).1 rfl).2.2.2 (by decide)⟩

/-- Claim C6: for every row y < 32, a player at (0, y) (cell y*32)
choosing Left has an out-of-bounds candidate and crashes that turn, and a
player at (31, y) (cell y*32+31) choosing Right likewise; stated for
either side. -/
theorem wall_collision (s : MatchState) (r : MoveResult) (y : Nat)
    (hy : y < 32) (hp : s.phase = .Running) :
    candidate (y * 32) .left = none ∧
    candidate (y * 32 + 31) .right = none ∧
    (s.red.currentPosition = y * 32 →
      (stepTurn s (.move .left) r).red.alive = false) ∧
    (s.red.currentPosition = y * 32 + 31 →
      (stepTurn s (.move .right) r).red.alive = false) ∧
    (s.blue.currentPosition = y * 32 →
      (stepTurn s r (.move .left)).blue.alive = false) ∧
    (s.blue.currentPosition = y * 32 + 31 →
      (stepTurn s r (.move .right)).blue.alive = false) := by
  have hm0 : (y * 32) % 32 = 0 := by omega
  have hm31 : (y * 32 + 31) % 32 = 31 := by omega
  have hleft : candidate (y * 32) Move.left = none := by
    simp [candidate, delta, hm0]
  have hright : candidate (y * 32 + 31) Move.right = none := by
    simp [candidate, delta, hm31]
  refine ⟨hleft, hright, ?_, ?_, ?_, ?_⟩
  · intro hpos
    exact red_crash_dead s (.move .left) r hp (by simp [candOf, hpos, hleft, crashB])
  · intro hpos
    exact red_crash_dead s (.move .right) r hp (by simp [candOf, hpos, hright, crashB])
  · intro hpos
    exact blue_crash_dead s r (.move .left) hp (by simp [candOf, hpos, hleft, crashB])
  · intro hpos
    exact blue_crash_dead s r (.move .right) hp (by simp [candOf, hpos, hright, crashB])

/-- Witness for C6: Red at cell 480 = (0, 15) moving Left crashes from
the wall state. -/
theorem wall_collision_witness :
    (15 : Nat) < 32 ∧
    wallState.phase = .Running ∧
    candidate (15 * 32) .left = none ∧
    wallState.red.currentPosition = 15 * 32 ∧
    (stepTurn wallState (.move .left) (.move .up)).red.alive = false :=
  ⟨by decide, rfl,
   (wall_collision wallState (.move .up) 15 (by decide) rfl).1,
   rfl,
   (wall_collision wallState (.move .up) 15 (by decide) rfl).2.2.1 rfl⟩

/-- Claim C7: the broadcaster publishes, as an event named `render`, a
payload with width 32, height 32, and a row-major data sequence of length
width*height whose entry at y*width+x is "Red" exactly on Red-owned
cells, "Blue" exactly on Blue-owned cells, and another value otherwise —
the format `script.js` consumes by indexing data at y*width+x. -/
theorem render_payload_format (s : MatchState) (x y : Nat)
    (hx : x < 32) (hy : y < 32) :
    broadcastEventName = "render" ∧
    (snapshot s).width = 32 ∧
    (snapshot s).height = 32 ∧
    (snapshot s).data.length = (snapshot s).width * (snapshot s).height ∧
    ((snapshot s).data)[y * (snapshot s).width + x]? =
      some (cellEntry (s.board (y * 32 + x))) ∧
    (cellEntry (s.board (y * 32 + x)) = "Red" ↔ s.board (y * 32 + x) = .OwnedBy .Red) ∧
    (cellEntry (s.board (y * 32 + x)) = "Blue" ↔ s.board (y * 32 + x) = .OwnedBy .Blue) := by
  have hlt : y * 32 + x < 32 * 32 := by omega
  refine ⟨rfl, rfl, rfl, ?_, ?_, ?_, ?_⟩
  · simp [snapshot]
  · simp [snapshot, List.getElem?_map, List.getElem?_range, hlt]
  · cases hcell : s.board (y * 32 + x) with
    | Empty => simp [cellEntry]
    | OwnedBy c => cases c <;> simp [cellEntry]
  · cases hcell : s.board (y * 32 + x) with
    | Empty => simp [cellEntry]
    | OwnedBy c => cases c <;> simp [cellEntry]

/-- Witness for C7: at (x, y) = (4, 15) the initial snapshot publishes
"Red" for Red's starting cell 484. -/
theorem render_payload_format_witness :
    (4 : Nat) < 32 ∧
    (15 : Nat) < 32 ∧
    ((snapshot initMatch).data)[15 * (snapshot initMatch).width + 4]? =
      some (cellEntry (initMatch.board (15 * 32 + 4))) ∧
    cellEntry (initMatch.board (15 * 32 + 4)) = "Red" :=
  ⟨by decide, by decide,
   (render_payload_format initMatch 4 15 (by decide) (by decide)).2.2.2.2.1,
   (render_payload_format initMatch 4 15 (by decide) (by decide)).2.2.2.2.2.1.mpr
     (by decide)⟩

/-- Claim C8: of the two inbound connections, the one whose identifier
line is fully received first is assigned Red with starting cell 484, the
other Blue with starting cell 1023 - 484 = 539; the initial match state
has the same positions. -/
theorem first_conn_red (a b : String) :
    (assignSides a b).redId = a ∧
    (assignSides a b).blueId = b ∧
    (assignSides a b).redStartCell = 484 ∧
    (assignSides a b).blueStartCell = 1023 - 484 ∧
    (assignSides a b).blueStartCell = 539 ∧
    (assignSides a b).blueStartCell = reflect (assignSides a b).redStartCell ∧
    initMatch.red.color = .Red ∧
    initMatch.red.currentPosition = 484 ∧
    initMatch.blue.color = .Blue ∧
    initMatch.blue.currentPosition = 539 :=
  ⟨rfl, rfl, rfl, rfl, rfl, rfl, rfl, rfl, rfl, rfl⟩

set_option maxRecDepth 8192 in
/-- Counterexample to C9 as stated: after Red sends `u` and Blue sends
`u` in its own frame from the initial state, the next position line sent
to Red is not the README's literal `485 538`. -/
theorem example_trace_counterexample :
    posLineFor .Red (stepTurn initMatch (.move .up) (.move (canonicalMove .Blue .up))) ≠
      "485 538" := by
  decide

set_option maxRecDepth 8192 in
/-- Claim C9 (amended): in the protocol example's first turn — Red at 484
sends `u`, Blue sends `u` in its own frame (canonical `d`) — Red's
candidate is 484-32 = 452 and Blue's candidate is 539+32 = 571, both
moves are legal and distinct, the turn advances, and the next position
line sent to each player is `452 571` (the README's literal trace
`484 539` → `485 538` would instead require both players to send `r` in
their own frames). -/
theorem example_first_turn :
    posLineFor .Red initMatch = "484 539" ∧
    posLineFor .Blue initMatch = "484 539" ∧
    canonicalMove .Blue .up = .down ∧
    candOf initMatch.red (.move .up) = some 452 ∧
    candOf initMatch.blue (.move (canonicalMove .Blue .up)) = some 571 ∧
    isOccupied initMatch.board 452 = false ∧
    isOccupied initMatch.board 571 = false ∧
    (452 : Nat) ≠ 571 ∧
    (stepTurn initMatch (.move .up) (.move (canonicalMove .Blue .up))).phase = .Running ∧
    (stepTurn initMatch (.move .up) (.move (canonicalMove .Blue .up))).turn =
      initMatch.turn + 1 ∧
    posLineFor .Red (stepTurn initMatch (.move .up) (.move (canonicalMove .Blue .up))) =
      "452 571" ∧
    posLineFor .Blue (stepTurn initMatch (.move .up) (.move (canonicalMove .Blue .up))) =
      "452 571" ∧
    candOf initMatch.red (.move .right) = some 485 ∧
    candOf initMatch.blue (.move (canonicalMove .Blue .right)) = some 538 ∧
    posLineFor .Red (stepTurn initMatch (.move .right) (.move (canonicalMove .Blue .right))) =
      "485 538" := by
  decide

/-- Claim C10: the renderer's per-cell colour decision is total: an entry
equal to "Red" renders red, an entry equal to "Blue" renders blue, any
other entry — including a missing entry when data is shorter than the
index — renders grey. -/
theorem render_total (ds : List String) (idx : Nat) :
    (ds[idx]? = some "Red" → cellFill ds idx = .red) ∧
    (ds[idx]? = some "Blue" → cellFill ds idx = .blue) ∧
    (∀ v, ds[idx]? = some v → v ≠ "Red" → v ≠ "Blue" → cellFill ds idx = .grey) ∧
    (ds.length ≤ idx → cellFill ds idx = .grey) := by
  refine ⟨?_, ?_, ?_, ?_⟩
  · intro h
    simp [cellFill, squareColor, h]
  · intro h
    simp [cellFill, squareColor, h]
  · intro v h hr hb
    simp [cellFill, squareColor, h, hr, hb]
  · intro h
    have hn : ds[idx]? = none := by
      rw [List.getElem?_eq_none h]
    simp [cellFill, squareColor, hn]

/-- Witness for C10: on the list ["Red", "Blue", "x"], the renderer
colours cell 0 red, cell 1 blue, cell 2 grey, and the out-of-range cell 9
grey. -/
theorem render_total_witness :
    (["Red", "Blue", "x"] : List String)[0]? = some "Red" ∧
    cellFill ["Red", "Blue", "x"] 0 = .red ∧
    cellFill ["Red", "Blue", "x"] 1 = .blue ∧
    cellFill ["Red", "Blue", "x"] 2 = .grey ∧
    cellFill ["Red", "Blue", "x"] 9 = .grey :=
  ⟨rfl,
   (render_total ["Red", "Blue", "x"] 0).1 rfl,
   (render_total ["Red", "Blue", "x"] 1).2.1 rfl,
   (render_total ["Red", "Blue", "x"] 2).2.2.1 "x" rfl (by decide) (by decide),
   (render_total ["Red", "Blue", "x"] 9).2.2.2 (by decide)⟩

end SnakeBattle
